import Mathlib

/-!
Verification development for the workspace-daemon lifecycle controller.

The repository contains two parallel implementations of the workspace HTTP
handlers, the SQLite registry and the Helm orchestrator adapter:

* the `WorkspaceHandler` variant
  (workspace-daemon/internal/api/handlers/workspaces.go, paired with the
  first SQLiteStore in the store package and the HelmOrchestrator of
  workspace-daemon/internal/orchestrator/helm.go), and
* the `WorkspaceHandlers` variant (the second handlers file, paired with
  the second SQLiteStore and the second HelmOrchestrator).

Both variants are embedded below and every claim is settled against the
variants its sources cite.  SQLite tables are modelled as Lean lists kept
newest-first (matching the `ORDER BY created_at DESC` read queries), the
sql `AUTOINCREMENT` event id as an explicit counter, timestamps as
naturals supplied by the caller, and the Gin/HTTP layer as plain
functions from the request data to a response value.  Orchestrator calls
are passed in as `Except String Unit` outcomes, since the cluster is
external to the program.  A Go nil-pointer dereference is modelled by the
distinguished response `HandlerResult.crash`.
-/

namespace WorkspaceDaemon

/-- Lifecycle status constants from internal/store/store.go
(`StatusPending`, `StatusRunning`, `StatusStopped`, `StatusError`). -/
inductive WStatus where
  | pending
  | running
  | stopped
  | error
deriving DecidableEq, Repr

/-- String rendering of a status, as stored in the `status` column and in
`WorkspaceDTO.Status`. -/
def WStatus.toText : WStatus → String
  | .pending => "pending"
  | .running => "running"
  | .stopped => "stopped"
  | .error => "error"

/-- The Workspace record of internal/store/store.go.  The Go field
`Namespace` is called `nsName` here because `namespace` is a Lean keyword. -/
structure Workspace where
  id : String
  name : String
  status : WStatus
  dockerImage : String
  dockerImageTag : String
  helmReleaseName : String
  nsName : String
  ingressHost : String
  cpuRequest : String
  memoryRequest : String
  cpuLimit : String
  memoryLimit : String
  dataSize : String
  srcSize : String
  gitEnabled : Bool
  gitUserName : String
  gitUserEmail : String
  createdAt : Nat
  updatedAt : Nat
deriving DecidableEq, Repr

/-- WorkspaceSecret of internal/store/store.go: a
(workspace id, key) → value triple. -/
structure WorkspaceSecret where
  workspaceId : String
  key : String
  value : String
deriving DecidableEq, Repr

/-- WorkspaceEvent of internal/store/store.go. -/
structure WorkspaceEvent where
  id : Nat
  workspaceId : String
  eventType : String
  message : String
  metadata : String
  createdAt : Nat
deriving DecidableEq, Repr

/-- CreateWorkspaceRequest: the JSON body bound for POST /workspaces.
The secrets map is carried as an association list. -/
structure CreateWorkspaceRequest where
  name : String
  dockerImage : String
  dockerImageTag : String
  cpuRequest : String
  memoryRequest : String
  cpuLimit : String
  memoryLimit : String
  dataSize : String
  srcSize : String
  gitUserName : String
  gitUserEmail : String
  secrets : List (String × String)
deriving DecidableEq, Repr

/-- The SQLite database state: the three tables plus the AUTOINCREMENT
counter of workspace_events.  The workspaces and events lists are kept
newest-first so that the `ORDER BY created_at DESC` reads are plain
prefixes. -/
structure StoreState where
  workspaces : List Workspace
  secrets : List WorkspaceSecret
  events : List WorkspaceEvent
  nextEventId : Nat
deriving DecidableEq, Repr

/-- Row lookup by primary key, the shared core of both GetWorkspace
variants (`SELECT ... FROM workspaces WHERE id = ?`). -/
def lookupWorkspace (l : List Workspace) (id : String) : Option Workspace :=
  l.find? (fun w => w.id == id)

namespace SQLiteStore

/-- CreateWorkspace (both store variants): INSERT with `id` as PRIMARY
KEY; a colliding id violates the unique constraint and fails.  The second
variant sets CreatedAt/UpdatedAt to time.Now before inserting; the first
relies on the column defaults — both amount to the current instant. -/
def createWorkspace (st : StoreState) (ws : Workspace) (now : Nat) :
    Except String StoreState :=
  if (lookupWorkspace st.workspaces ws.id).isSome then
    Except.error "UNIQUE constraint failed: workspaces.id"
  else
    Except.ok { st with
      workspaces := { ws with createdAt := now, updatedAt := now } :: st.workspaces }

/-- GetWorkspace, first store variant: `sql.ErrNoRows` is turned into the
error "workspace not found: <id>"; a nil workspace is never returned
without an error. -/
def getWorkspaceV1 (st : StoreState) (id : String) :
    Except String (Option Workspace) :=
  match lookupWorkspace st.workspaces id with
  | some ws => Except.ok (some ws)
  | none => Except.error ("workspace not found: " ++ id)

/-- GetWorkspace, second store variant: `sql.ErrNoRows` is mapped to
`(nil, nil)` — a nil workspace with a nil error. -/
def getWorkspaceV2 (st : StoreState) (id : String) :
    Except String (Option Workspace) :=
  Except.ok (lookupWorkspace st.workspaces id)

/-- UpdateWorkspace, first store variant: the UPDATE statement's SET list
covers name, status, image, tag, ingress host, the resource envelope, the
git fields and updated_at; `id`, `helm_release_name` and `namespace` are
not in the SET list. -/
def updateWorkspaceV1 (st : StoreState) (ws : Workspace) (now : Nat) : StoreState :=
  { st with workspaces := st.workspaces.map (fun row =>
      if row.id == ws.id then
        { row with
          name := ws.name, status := ws.status,
          dockerImage := ws.dockerImage, dockerImageTag := ws.dockerImageTag,
          ingressHost := ws.ingressHost,
          cpuRequest := ws.cpuRequest, memoryRequest := ws.memoryRequest,
          cpuLimit := ws.cpuLimit, memoryLimit := ws.memoryLimit,
          dataSize := ws.dataSize, srcSize := ws.srcSize,
          gitEnabled := ws.gitEnabled, gitUserName := ws.gitUserName,
          gitUserEmail := ws.gitUserEmail, updatedAt := now }
      else row) }

/-- UpdateWorkspace, second store variant: its SET list additionally
covers `helm_release_name` and `namespace`, writing them from the passed
record. -/
def updateWorkspaceV2 (st : StoreState) (ws : Workspace) (now : Nat) : StoreState :=
  { st with workspaces := st.workspaces.map (fun row =>
      if row.id == ws.id then
        { row with
          name := ws.name, status := ws.status,
          dockerImage := ws.dockerImage, dockerImageTag := ws.dockerImageTag,
          helmReleaseName := ws.helmReleaseName, nsName := ws.nsName,
          ingressHost := ws.ingressHost,
          cpuRequest := ws.cpuRequest, memoryRequest := ws.memoryRequest,
          cpuLimit := ws.cpuLimit, memoryLimit := ws.memoryLimit,
          dataSize := ws.dataSize, srcSize := ws.srcSize,
          gitEnabled := ws.gitEnabled, gitUserName := ws.gitUserName,
          gitUserEmail := ws.gitUserEmail, updatedAt := now }
      else row) }

/-- SetSecret (both variants): upsert keyed by (workspace_id, key). -/
def setSecret (st : StoreState) (s : WorkspaceSecret) : StoreState :=
  { st with secrets :=
      s :: st.secrets.filter (fun t => !(t.workspaceId == s.workspaceId && t.key == s.key)) }

/-- LogEvent (both variants): INSERT into workspace_events; AUTOINCREMENT
assigns the id and the creation timestamp is the current instant. -/
def logEvent (st : StoreState) (workspaceId eventType message : String)
    (now : Nat) : StoreState :=
  { st with
    events := { id := st.nextEventId, workspaceId := workspaceId,
                eventType := eventType, message := message,
                metadata := "", createdAt := now } :: st.events,
    nextEventId := st.nextEventId + 1 }

/-- GetEvents (both variants): filter by workspace id, newest first,
`LIMIT ?` applied as given; SQLite treats a negative LIMIT as no limit. -/
def getEvents (st : StoreState) (workspaceId : String) (limit : Int) :
    List WorkspaceEvent :=
  let l := st.events.filter (fun e => e.workspaceId == workspaceId)
  if limit < 0 then l else l.take limit.toNat

end SQLiteStore

/-! ## Orchestrator adapter (Helm) -/

/-- Modelled from the spec: the release engine's uninstall primitive
(`helm.sh/helm/v3/pkg/action.Uninstall.Run`, not part of this
repository's sources).  Per §4.B/§7 of the spec, uninstall is the raw
primitive the Delete wrapper must shield the caller from: uninstalling a
release that is absent from the cluster fails with a release-not-found
error, while uninstalling a present release removes it. -/
def helmUninstall (releases : List String) (releaseName : String) :
    Except String (List String) :=
  if releaseName ∈ releases then
    Except.ok (releases.erase releaseName)
  else
    Except.error ("uninstall: Release not loaded: " ++ releaseName ++ ": release: not found")

namespace HelmOrchestrator

/-- DeleteWorkspace of workspace-daemon/internal/orchestrator/helm.go:
derives the release name as "hld-" + id, runs uninstall, logs a warning
and continues when uninstall fails, best-effort deletes the namespace,
and returns nil in every case.  Returns the surviving release set and the
error returned to the caller. -/
def deleteWorkspaceHelmGo (releases : List String) (ws : Workspace) :
    List String × Except String Unit :=
  let releaseName := "hld-" ++ ws.id
  match helmUninstall releases releaseName with
  | Except.ok rest => (rest, Except.ok ())
  | Except.error _ => (releases, Except.ok ())

/-- DeleteWorkspace of the second orchestrator file: runs uninstall on
the workspace's stored release name and RETURNS the wrapped error when
uninstall fails; only after a successful uninstall does it best-effort
delete the namespace and return nil. -/
def deleteWorkspaceV2 (releases : List String) (ws : Workspace) :
    List String × Except String Unit :=
  match helmUninstall releases ws.helmReleaseName with
  | Except.ok rest => (rest, Except.ok ())
  | Except.error e => (releases, Except.error ("failed to uninstall helm release: " ++ e))

end HelmOrchestrator

/-! ## HTTP surface: DTOs and responses -/

/-- workspaceToDTO of handlers/workspaces.go: the API projection of a
workspace.  It carries exactly the declaration fields — no secret key or
value appears in this structure. -/
structure WorkspaceDTO where
  id : String
  name : String
  status : String
  dockerImage : String
  dockerImageTag : String
  helmReleaseName : String
  nsName : String
  ingressHost : String
  cpuRequest : String
  memoryRequest : String
  cpuLimit : String
  memoryLimit : String
  dataSize : String
  srcSize : String
  gitEnabled : Bool
  gitUserName : String
  gitUserEmail : String
  createdAt : Nat
  updatedAt : Nat
deriving DecidableEq, Repr

/-- workspaceToDTO (handlers/workspaces.go). -/
def workspaceToDTO (ws : Workspace) : WorkspaceDTO :=
  { id := ws.id
    name := ws.name
    status := ws.status.toText
    dockerImage := ws.dockerImage
    dockerImageTag := ws.dockerImageTag
    helmReleaseName := ws.helmReleaseName
    nsName := ws.nsName
    ingressHost := ws.ingressHost
    cpuRequest := ws.cpuRequest
    memoryRequest := ws.memoryRequest
    cpuLimit := ws.cpuLimit
    memoryLimit := ws.memoryLimit
    dataSize := ws.dataSize
    srcSize := ws.srcSize
    gitEnabled := ws.gitEnabled
    gitUserName := ws.gitUserName
    gitUserEmail := ws.gitUserEmail
    createdAt := ws.createdAt
    updatedAt := ws.updatedAt }

/-- The outcome a handler writes to the HTTP response.  `okDTO`/
`createdDTO` are the 200/201 bodies of the WorkspaceHandler variant
(which serializes via workspaceToDTO); `okWs`/`createdWs` are the 200/201
bodies of the WorkspaceHandlers variant, carrying the workspace record
handed to api.ToDTO (api.ToDTO itself is not among the sources; it is a
pure projection of the carried record).  `crash` stands for a Go
nil-pointer dereference: no response is produced. -/
inductive HandlerResult where
  | okDTO (dto : WorkspaceDTO)
  | createdDTO (dto : WorkspaceDTO)
  | okWs (ws : Workspace)
  | createdWs (ws : Workspace)
  | okMessage (msg : String)
  | badRequest (msg : String)
  | notFound (msg : String)
  | internalError (msg : String)
  | crash
deriving DecidableEq, Repr

/-- Decimal digits to a natural number, most significant first. -/
def digitsToNat (cs : List Char) : Nat :=
  cs.foldl (fun acc c => acc * 10 + (c.toNat - Char.toNat '0')) 0

/-- Model of Go's strconv.Atoi (also used for fmt.Sscanf "%d" on a pure
decimal query value): an optional sign followed by at least one digit;
anything else fails to parse. -/
def parseDec (s : String) : Option Int :=
  match s.toList with
  | [] => none
  | '-' :: rest =>
    if !rest.isEmpty && rest.all Char.isDigit then some (-(digitsToNat rest : Int)) else none
  | '+' :: rest =>
    if !rest.isEmpty && rest.all Char.isDigit then some ((digitsToNat rest : Int)) else none
  | cs => if cs.all Char.isDigit then some ((digitsToNat cs : Int)) else none

/-! ## WorkspaceHandler variant (handlers/workspaces.go) -/

namespace WorkspaceHandler

/-- sanitizeName of handlers/workspaces.go: lowercase, spaces to dashes,
drop everything but [a-z0-9-], truncate to 53 characters. -/
def sanitizeName (name : String) : String :=
  let cs := name.toList.map Char.toLower
  let cs := cs.map (fun c => if c == ' ' then '-' else c)
  let cs := cs.filter (fun c =>
    (decide ('a' ≤ c) && decide (c ≤ 'z')) ||
    (decide ('0' ≤ c) && decide (c ≤ '9')) || c == '-')
  String.mk (cs.take 53)

/-- The git-enabled computation inside WorkspaceHandler.Create:
`gitEnabled := req.GitUserName != "" || req.GitUserEmail != ""`, then set
to true when the secrets map has the key "gh_token". -/
def gitEnabled (req : CreateWorkspaceRequest) : Bool :=
  (!(req.gitUserName == "") || !(req.gitUserEmail == "")) ||
    req.secrets.any (fun kv => kv.fst == "gh_token")

/-- The workspace record built by WorkspaceHandler.Create before the
store insert: id from the uuid prefix (passed in as `id`), release name
and namespace both "ws-" + id, image defaulting to "hld"/"latest",
ingress host from the sanitized name, no resource defaults. -/
def newWorkspace (req : CreateWorkspaceRequest) (id : String) : Workspace :=
  { id := id
    name := req.name
    status := WStatus.pending
    dockerImage := if req.dockerImage == "" then "hld" else req.dockerImage
    dockerImageTag := if req.dockerImageTag == "" then "latest" else req.dockerImageTag
    helmReleaseName := "ws-" ++ id
    nsName := "ws-" ++ id
    ingressHost := sanitizeName req.name ++ ".workspaces.local"
    cpuRequest := req.cpuRequest
    memoryRequest := req.memoryRequest
    cpuLimit := req.cpuLimit
    memoryLimit := req.memoryLimit
    dataSize := req.dataSize
    srcSize := req.srcSize
    gitEnabled := gitEnabled req
    gitUserName := req.gitUserName
    gitUserEmail := req.gitUserEmail
    createdAt := 0
    updatedAt := 0 }

/-- The `ws, _ = h.store.GetWorkspace(ctx, id)` reload followed by
`workspaceToDTO(ws)`: the store error is discarded, so a nil reload is a
nil dereference (`crash`). -/
def respondReloaded (st : StoreState) (id : String)
    (mk : WorkspaceDTO → HandlerResult) : HandlerResult :=
  match lookupWorkspace st.workspaces id with
  | some w => mk (workspaceToDTO w)
  | none => HandlerResult.crash

/-- WorkspaceHandler.Create, the synchronous part: insert the record,
store the secrets (failures logged, never aborting), append the
`created` event, dispatch Deploy to a background goroutine (modelled
separately by `backgroundDeploy`), reload and answer 201.  The response
is produced before the deploy outcome is known. -/
def create (st : StoreState) (req : CreateWorkspaceRequest) (id : String)
    (now : Nat) : StoreState × HandlerResult :=
  let ws := newWorkspace req id
  match SQLiteStore.createWorkspace st ws now with
  | Except.error _ => (st, HandlerResult.internalError "Failed to create workspace")
  | Except.ok st1 =>
    let st2 := req.secrets.foldl
      (fun acc kv => SQLiteStore.setSecret acc ⟨id, kv.fst, kv.snd⟩) st1
    let st3 := SQLiteStore.logEvent st2 id "created"
      ("Workspace '" ++ req.name ++ "' created") now
    (st3, respondReloaded st3 id HandlerResult.createdDTO)

/-- The body of the background deployment goroutine inside
WorkspaceHandler.Create: on Deploy failure set status error, update, and
append an `error` event "Deployment failed: <err>"; on success set
status running, update, and append a `started` event "Workspace deployed
successfully".  No HTTP response is involved — the 201 was already sent. -/
def backgroundDeploy (st : StoreState) (ws : Workspace)
    (deploy : Except String Unit) (now : Nat) : StoreState :=
  match deploy with
  | Except.error e =>
    let st1 := SQLiteStore.updateWorkspaceV1 st { ws with status := WStatus.error } now
    SQLiteStore.logEvent st1 ws.id "error" ("Deployment failed: " ++ e) now
  | Except.ok _ =>
    let st1 := SQLiteStore.updateWorkspaceV1 st { ws with status := WStatus.running } now
    SQLiteStore.logEvent st1 ws.id "started" "Workspace deployed successfully" now

/-- WorkspaceHandler.Get: any store error answers 404; otherwise the
returned pointer is passed straight to workspaceToDTO, so a nil
workspace without an error is dereferenced. -/
def get (r : Except String (Option Workspace)) : HandlerResult :=
  match r with
  | Except.error _ => HandlerResult.notFound "Workspace not found"
  | Except.ok (some ws) => HandlerResult.okDTO (workspaceToDTO ws)
  | Except.ok none => HandlerResult.crash

/-- WorkspaceHandler.Start: 404 when the id is unknown; 400 when the
declared status is already running; otherwise call the orchestrator
(`none` models a nil orchestrator, which is skipped), answer 500 on its
error without touching the store, else set status running, append a
`started` event, reload and answer 200. -/
def start (st : StoreState) (id : String)
    (orch : Option (Except String Unit)) (now : Nat) : StoreState × HandlerResult :=
  match lookupWorkspace st.workspaces id with
  | none => (st, HandlerResult.notFound "Workspace not found")
  | some ws =>
    if ws.status == WStatus.running then
      (st, HandlerResult.badRequest "Workspace is already running")
    else
      match orch with
      | some (Except.error _) => (st, HandlerResult.internalError "Failed to start workspace")
      | _ =>
        let st1 := SQLiteStore.updateWorkspaceV1 st { ws with status := WStatus.running } now
        let st2 := SQLiteStore.logEvent st1 id "started" "Workspace started" now
        (st2, respondReloaded st2 id HandlerResult.okDTO)

/-- WorkspaceHandler.Stop: symmetric to `start` — 400 when already
stopped, 500 on an orchestrator error with the store untouched, else
status stopped plus a `stopped` event. -/
def stop (st : StoreState) (id : String)
    (orch : Option (Except String Unit)) (now : Nat) : StoreState × HandlerResult :=
  match lookupWorkspace st.workspaces id with
  | none => (st, HandlerResult.notFound "Workspace not found")
  | some ws =>
    if ws.status == WStatus.stopped then
      (st, HandlerResult.badRequest "Workspace is already stopped")
    else
      match orch with
      | some (Except.error _) => (st, HandlerResult.internalError "Failed to stop workspace")
      | _ =>
        let st1 := SQLiteStore.updateWorkspaceV1 st { ws with status := WStatus.stopped } now
        let st2 := SQLiteStore.logEvent st1 id "stopped" "Workspace stopped" now
        (st2, respondReloaded st2 id HandlerResult.okDTO)

/-- The limit computation of WorkspaceHandler.Events: default 50; a
present query value is parsed with strconv.Atoi (modelled by parseDec)
and only adopted when 0 < l ≤ 100 — anything else falls back to the
default. -/
def eventsLimit (limitStr : String) : Int :=
  if limitStr == "" then 50
  else
    match parseDec limitStr with
    | some l => if 0 < l ∧ l ≤ 100 then l else 50
    | none => 50

end WorkspaceHandler

/-! ## WorkspaceHandlers variant (the second handlers file) -/

/-- defaultString of the second handlers file. -/
def defaultString (val d : String) : String :=
  if val == "" then d else val

namespace WorkspaceHandlers

/-- The workspace record built by WorkspaceHandlers.CreateWorkspace:
release name "hld-" + id, namespace "workspace-" + id, ingress host
"workspace-" + id + ".workspaces.local", defaults for image and the full
resource envelope, and git enabled iff committer name AND email are both
present (the secrets are not consulted). -/
def newWorkspace (req : CreateWorkspaceRequest) (id : String) : Workspace :=
  { id := id
    name := req.name
    status := WStatus.pending
    dockerImage := defaultString req.dockerImage "la-nuc-1:30500/hld"
    dockerImageTag := defaultString req.dockerImageTag "latest"
    helmReleaseName := "hld-" ++ id
    nsName := "workspace-" ++ id
    ingressHost := "workspace-" ++ id ++ ".workspaces.local"
    cpuRequest := defaultString req.cpuRequest "100m"
    memoryRequest := defaultString req.memoryRequest "256Mi"
    cpuLimit := defaultString req.cpuLimit "1"
    memoryLimit := defaultString req.memoryLimit "1Gi"
    dataSize := defaultString req.dataSize "1Gi"
    srcSize := defaultString req.srcSize "5Gi"
    gitEnabled := !(req.gitUserName == "") && !(req.gitUserEmail == "")
    gitUserName := req.gitUserName
    gitUserEmail := req.gitUserEmail
    createdAt := 0
    updatedAt := 0 }

/-- WorkspaceHandlers.CreateWorkspace: build the record, insert it
(store failure answers 500), store the secrets (failures logged, never
aborting), append the `created` event, then invoke Deploy synchronously
in the request path.  On Deploy failure: status error, an `error` event
"Deployment failed: <err>", and a 500 carrying the wrapped error.  On
success: status running, a `deployed` event "Helm release installed",
and a 201 with the record. -/
def createWorkspace (st : StoreState) (req : CreateWorkspaceRequest)
    (id : String) (deploy : Except String Unit) (now : Nat) :
    StoreState × HandlerResult :=
  let ws := { newWorkspace req id with createdAt := now, updatedAt := now }
  match SQLiteStore.createWorkspace st ws now with
  | Except.error e => (st, HandlerResult.internalError e)
  | Except.ok st1 =>
    let st2 := req.secrets.foldl
      (fun acc kv => SQLiteStore.setSecret acc ⟨id, kv.fst, kv.snd⟩) st1
    let st3 := SQLiteStore.logEvent st2 id "created"
      ("Workspace " ++ req.name ++ " created") now
    match deploy with
    | Except.error e =>
      let st4 := SQLiteStore.updateWorkspaceV2 st3 { ws with status := WStatus.error } now
      let st5 := SQLiteStore.logEvent st4 id "error" ("Deployment failed: " ++ e) now
      (st5, HandlerResult.internalError ("deployment failed: " ++ e))
    | Except.ok _ =>
      let st4 := SQLiteStore.updateWorkspaceV2 st3 { ws with status := WStatus.running } now
      let st5 := SQLiteStore.logEvent st4 id "deployed" "Helm release installed" now
      (st5, HandlerResult.createdWs { ws with status := WStatus.running })

/-- WorkspaceHandlers.GetWorkspace: a store error answers 500 with the
error message; a nil workspace without an error is checked explicitly
and answers 404 "workspace not found: <id>"; only a non-nil workspace
reaches api.ToDTO.  The best-effort observed-status attachment is
advisory and not modelled. -/
def getWorkspace (id : String) (r : Except String (Option Workspace)) : HandlerResult :=
  match r with
  | Except.error e => HandlerResult.internalError e
  | Except.ok none => HandlerResult.notFound ("workspace not found: " ++ id)
  | Except.ok (some ws) => HandlerResult.okWs ws

/-- WorkspaceHandlers.StartWorkspace: 404 on unknown id (the nil check),
no already-running guard; an orchestrator error answers 500 without
touching the store; on success set status running, append a `started`
event and answer 200. -/
def startWorkspace (st : StoreState) (id : String)
    (orch : Except String Unit) (now : Nat) : StoreState × HandlerResult :=
  match lookupWorkspace st.workspaces id with
  | none => (st, HandlerResult.notFound ("workspace not found: " ++ id))
  | some ws =>
    match orch with
    | Except.error e => (st, HandlerResult.internalError ("failed to start: " ++ e))
    | Except.ok _ =>
      let ws' := { ws with status := WStatus.running }
      let st1 := SQLiteStore.updateWorkspaceV2 st ws' now
      let st2 := SQLiteStore.logEvent st1 id "started" "Workspace started" now
      (st2, HandlerResult.okWs ws')

/-- WorkspaceHandlers.StopWorkspace: symmetric to startWorkspace, with
status stopped and a `stopped` event. -/
def stopWorkspace (st : StoreState) (id : String)
    (orch : Except String Unit) (now : Nat) : StoreState × HandlerResult :=
  match lookupWorkspace st.workspaces id with
  | none => (st, HandlerResult.notFound ("workspace not found: " ++ id))
  | some ws =>
    match orch with
    | Except.error e => (st, HandlerResult.internalError ("failed to stop: " ++ e))
    | Except.ok _ =>
      let ws' := { ws with status := WStatus.stopped }
      let st1 := SQLiteStore.updateWorkspaceV2 st ws' now
      let st2 := SQLiteStore.logEvent st1 id "stopped" "Workspace stopped" now
      (st2, HandlerResult.okWs ws')

/-- The limit computation of WorkspaceHandlers.GetEvents: default 50; a
present query value is parsed with fmt.Sscanf "%d" (modelled by
parseDec; a failed parse leaves the default) and adopted with no range
check whatsoever. -/
def eventsLimit (limitStr : String) : Int :=
  if limitStr == "" then 50
  else
    match parseDec limitStr with
    | some l => l
    | none => 50

end WorkspaceHandlers

/-! ## Observation helpers used to state the claims -/

/-- The value a workspace row keeps in its immutable identity columns. -/
def identityView (st : StoreState) : List (String × String × String) :=
  st.workspaces.map (fun r => (r.id, r.helmReleaseName, r.nsName))

/-- The declared status the registry holds for an id right now. -/
def statusOf (st : StoreState) (id : String) : Option WStatus :=
  (lookupWorkspace st.workspaces id).map (fun w => w.status)

/-- Whether the event log holds an event of the given workspace, kind and
message. -/
def hasEvent (st : StoreState) (wsId ty msg : String) : Bool :=
  st.events.any (fun ev => ev.workspaceId == wsId && ev.eventType == ty && ev.message == msg)

/-- A fresh database, as after migrate() on a new file. -/
def emptyStore : StoreState :=
  { workspaces := [], secrets := [], events := [], nextEventId := 1 }

/-- Classification of responses by HTTP status family: 201. -/
def HandlerResult.isCreated : HandlerResult → Bool
  | HandlerResult.createdDTO _ => true
  | HandlerResult.createdWs _ => true
  | _ => false

/-- Classification of responses by HTTP status family: 200. -/
def HandlerResult.isOk200 : HandlerResult → Bool
  | HandlerResult.okDTO _ => true
  | HandlerResult.okWs _ => true
  | HandlerResult.okMessage _ => true
  | _ => false

/-- Classification of responses: any non-2xx outcome (4xx, 5xx or a
crash). -/
def HandlerResult.isFailure : HandlerResult → Bool
  | HandlerResult.badRequest _ => true
  | HandlerResult.notFound _ => true
  | HandlerResult.internalError _ => true
  | HandlerResult.crash => true
  | _ => false

/-- The spec's wording of the git-enabled condition (§4.D): committer
name and email both present, or the secret bundle contains `gh_token`.
Stated from the spec, to be compared with what the two Create
implementations compute. -/
def specGitEnabled (req : CreateWorkspaceRequest) : Bool :=
  (!(req.gitUserName == "") && !(req.gitUserEmail == "")) ||
    req.secrets.any (fun kv => kv.fst == "gh_token")

/-- The non-secret projection of the database: everything except the
workspace_secrets table. -/
def projState (st : StoreState) : List Workspace × List WorkspaceEvent × Nat :=
  (st.workspaces, st.events, st.nextEventId)

/-! ## Shared lemmas about the store operations -/

theorem setSecret_projState (st : StoreState) (s : WorkspaceSecret) :
    projState (SQLiteStore.setSecret st s) = projState st := rfl

theorem foldl_setSecret_projState (l : List (String × String)) (st : StoreState)
    (id : String) :
    projState (l.foldl (fun acc kv => SQLiteStore.setSecret acc ⟨id, kv.fst, kv.snd⟩) st)
      = projState st := by
  induction l generalizing st with
  | nil => rfl
  | cons kv t ih => simpa [List.foldl] using ih (SQLiteStore.setSecret st ⟨id, kv.fst, kv.snd⟩)

theorem foldl_setSecret_workspaces (l : List (String × String)) (st : StoreState)
    (id : String) :
    (l.foldl (fun acc kv => SQLiteStore.setSecret acc ⟨id, kv.fst, kv.snd⟩) st).workspaces
      = st.workspaces :=
  congrArg Prod.fst (foldl_setSecret_projState l st id)

theorem foldl_setSecret_events (l : List (String × String)) (st : StoreState)
    (id : String) :
    (l.foldl (fun acc kv => SQLiteStore.setSecret acc ⟨id, kv.fst, kv.snd⟩) st).events
      = st.events :=
  congrArg (fun p => p.snd.fst) (foldl_setSecret_projState l st id)

theorem foldl_setSecret_nextEventId (l : List (String × String)) (st : StoreState)
    (id : String) :
    (l.foldl (fun acc kv => SQLiteStore.setSecret acc ⟨id, kv.fst, kv.snd⟩) st).nextEventId
      = st.nextEventId :=
  congrArg (fun p => p.snd.snd) (foldl_setSecret_projState l st id)

theorem logEvent_workspaces (st : StoreState) (a b c : String) (n : Nat) :
    (SQLiteStore.logEvent st a b c n).workspaces = st.workspaces := rfl

theorem logEvent_projState_congr {st₁ st₂ : StoreState} (h : projState st₁ = projState st₂)
    (a b c : String) (n : Nat) :
    projState (SQLiteStore.logEvent st₁ a b c n) = projState (SQLiteStore.logEvent st₂ a b c n) := by
  have h1 : st₁.workspaces = st₂.workspaces := congrArg Prod.fst h
  have h2 : st₁.events = st₂.events := congrArg (fun p => p.snd.fst) h
  have h3 : st₁.nextEventId = st₂.nextEventId := congrArg (fun p => p.snd.snd) h
  simp [SQLiteStore.logEvent, projState, h1, h2, h3]

theorem updateV2_projState_congr {st₁ st₂ : StoreState} (h : projState st₁ = projState st₂)
    (ws : Workspace) (n : Nat) :
    projState (SQLiteStore.updateWorkspaceV2 st₁ ws n)
      = projState (SQLiteStore.updateWorkspaceV2 st₂ ws n) := by
  have h1 : st₁.workspaces = st₂.workspaces := congrArg Prod.fst h
  have h2 : st₁.events = st₂.events := congrArg (fun p => p.snd.fst) h
  have h3 : st₁.nextEventId = st₂.nextEventId := congrArg (fun p => p.snd.snd) h
  simp [SQLiteStore.updateWorkspaceV2, projState, h1, h2, h3]

theorem lookup_cons_self (ws : Workspace) (l : List Workspace) :
    lookupWorkspace (ws :: l) ws.id = some ws := by
  simp [lookupWorkspace, List.find?]

theorem lookup_cons_of_id {ws : Workspace} {l : List Workspace} {id : String}
    (h : ws.id = id) : lookupWorkspace (ws :: l) id = some ws := by
  simp [lookupWorkspace, List.find?, h]

/-- The row WorkspaceHandler.Create leaves in the registry for a fresh
id: its record with the creation timestamps. -/
theorem create_v1_stored (st : StoreState) (req : CreateWorkspaceRequest)
    (id : String) (now : Nat) (h : lookupWorkspace st.workspaces id = none) :
    lookupWorkspace ((WorkspaceHandler.create st req id now).fst.workspaces) id
      = some { WorkspaceHandler.newWorkspace req id with createdAt := now, updatedAt := now } := by
  have hid : (WorkspaceHandler.newWorkspace req id).id = id := rfl
  simp only [WorkspaceHandler.create, SQLiteStore.createWorkspace, hid, h,
    Option.isSome_none, Bool.false_eq_true, if_false,
    foldl_setSecret_workspaces, logEvent_workspaces, lookup_cons_of_id]

theorem hasEvent_logEvent_self (st : StoreState) (a b c : String) (n : Nat) :
    hasEvent (SQLiteStore.logEvent st a b c n) a b c = true := by
  simp [hasEvent, SQLiteStore.logEvent]

/-- The row WorkspaceHandlers.CreateWorkspace leaves for a fresh id when
Deploy fails: the record with declared status error. -/
theorem create_v2_stored_error (st : StoreState) (req : CreateWorkspaceRequest)
    (id : String) (e : String) (now : Nat)
    (h : lookupWorkspace st.workspaces id = none) :
    lookupWorkspace
      ((WorkspaceHandlers.createWorkspace st req id (Except.error e) now).fst.workspaces) id
      = some { WorkspaceHandlers.newWorkspace req id with
                status := WStatus.error, createdAt := now, updatedAt := now } := by
  have hid : (WorkspaceHandlers.newWorkspace req id).id = id := rfl
  simp only [WorkspaceHandlers.createWorkspace, SQLiteStore.createWorkspace, hid, h,
    Option.isSome_none, Bool.false_eq_true, if_false,
    SQLiteStore.updateWorkspaceV2, foldl_setSecret_workspaces, logEvent_workspaces,
    List.map_cons, beq_self_eq_true, if_true, lookup_cons_of_id]

/-- The row WorkspaceHandlers.CreateWorkspace leaves for a fresh id when
Deploy succeeds: the record with declared status running. -/
theorem create_v2_stored_ok (st : StoreState) (req : CreateWorkspaceRequest)
    (id : String) (now : Nat)
    (h : lookupWorkspace st.workspaces id = none) :
    lookupWorkspace
      ((WorkspaceHandlers.createWorkspace st req id (Except.ok ()) now).fst.workspaces) id
      = some { WorkspaceHandlers.newWorkspace req id with
                status := WStatus.running, createdAt := now, updatedAt := now } := by
  have hid : (WorkspaceHandlers.newWorkspace req id).id = id := rfl
  simp only [WorkspaceHandlers.createWorkspace, SQLiteStore.createWorkspace, hid, h,
    Option.isSome_none, Bool.false_eq_true, if_false,
    SQLiteStore.updateWorkspaceV2, foldl_setSecret_workspaces, logEvent_workspaces,
    List.map_cons, beq_self_eq_true, if_true, lookup_cons_of_id]

theorem identityView_updateV1 (st : StoreState) (ws : Workspace) (n : Nat) :
    identityView (SQLiteStore.updateWorkspaceV1 st ws n) = identityView st := by
  unfold identityView SQLiteStore.updateWorkspaceV1
  simp only [List.map_map]
  apply List.map_congr_left
  intro row _
  by_cases hrow : (row.id == ws.id) = true <;> simp [hrow, Function.comp]

theorem identityView_logEvent (st : StoreState) (a b c : String) (n : Nat) :
    identityView (SQLiteStore.logEvent st a b c n) = identityView st := rfl

theorem identityView_updateV2_unique (st : StoreState) (ws : Workspace) (n : Nat)
    (hws : ∀ w ∈ st.workspaces, w.id = ws.id →
        w.helmReleaseName = ws.helmReleaseName ∧ w.nsName = ws.nsName) :
    identityView (SQLiteStore.updateWorkspaceV2 st ws n) = identityView st := by
  unfold identityView SQLiteStore.updateWorkspaceV2
  simp only [List.map_map]
  apply List.map_congr_left
  intro row hrow
  by_cases h : (row.id == ws.id) = true
  · obtain ⟨h1, h2⟩ := hws row hrow (eq_of_beq h)
    simp [h, h1, h2, Function.comp]
  · simp [h, Function.comp]

theorem identityView_v1_start (st : StoreState) (id : String)
    (orch : Option (Except String Unit)) (n : Nat) :
    identityView (WorkspaceHandler.start st id orch n).fst = identityView st := by
  unfold WorkspaceHandler.start
  cases hfind : lookupWorkspace st.workspaces id with
  | none => rfl
  | some ws =>
    by_cases hrun : (ws.status == WStatus.running) = true
    · simp [hrun]
    · rcases orch with _ | (e | u) <;>
        simp [hrun, identityView_logEvent, identityView_updateV1]

theorem identityView_v1_stop (st : StoreState) (id : String)
    (orch : Option (Except String Unit)) (n : Nat) :
    identityView (WorkspaceHandler.stop st id orch n).fst = identityView st := by
  unfold WorkspaceHandler.stop
  cases hfind : lookupWorkspace st.workspaces id with
  | none => rfl
  | some ws =>
    by_cases hrun : (ws.status == WStatus.stopped) = true
    · simp [hrun]
    · rcases orch with _ | (e | u) <;>
        simp [hrun, identityView_logEvent, identityView_updateV1]

theorem identityView_v2_start (st : StoreState) (id : String)
    (orch : Except String Unit) (n : Nat)
    (hnd : (st.workspaces.map (fun r => r.id)).Nodup) :
    identityView (WorkspaceHandlers.startWorkspace st id orch n).fst = identityView st := by
  unfold WorkspaceHandlers.startWorkspace
  cases hfind : lookupWorkspace st.workspaces id with
  | none => rfl
  | some ws =>
    rcases orch with e | u
    · rfl
    · have hmem : ws ∈ st.workspaces := List.mem_of_find?_eq_some hfind
      have hws : ∀ w ∈ st.workspaces,
          w.id = ({ ws with status := WStatus.running } : Workspace).id →
          w.helmReleaseName = ({ ws with status := WStatus.running } : Workspace).helmReleaseName ∧
          w.nsName = ({ ws with status := WStatus.running } : Workspace).nsName := by
        intro w hw hid
        have hww : w = ws := List.inj_on_of_nodup_map hnd hw hmem (by simpa using hid)
        subst hww
        exact ⟨rfl, rfl⟩
      simpa [identityView_logEvent] using
        identityView_updateV2_unique st { ws with status := WStatus.running } n hws

theorem identityView_v2_stop (st : StoreState) (id : String)
    (orch : Except String Unit) (n : Nat)
    (hnd : (st.workspaces.map (fun r => r.id)).Nodup) :
    identityView (WorkspaceHandlers.stopWorkspace st id orch n).fst = identityView st := by
  unfold WorkspaceHandlers.stopWorkspace
  cases hfind : lookupWorkspace st.workspaces id with
  | none => rfl
  | some ws =>
    rcases orch with e | u
    · rfl
    · have hmem : ws ∈ st.workspaces := List.mem_of_find?_eq_some hfind
      have hws : ∀ w ∈ st.workspaces,
          w.id = ({ ws with status := WStatus.stopped } : Workspace).id →
          w.helmReleaseName = ({ ws with status := WStatus.stopped } : Workspace).helmReleaseName ∧
          w.nsName = ({ ws with status := WStatus.stopped } : Workspace).nsName := by
        intro w hw hid
        have hww : w = ws := List.inj_on_of_nodup_map hnd hw hmem (by simpa using hid)
        subst hww
        exact ⟨rfl, rfl⟩
      simpa [identityView_logEvent] using
        identityView_updateV2_unique st { ws with status := WStatus.stopped } n hws

theorem any_fst_congr (p : String → Bool) :
    ∀ (s1 s2 : List (String × String)), s1.map Prod.fst = s2.map Prod.fst →
      s1.any (fun kv => p kv.fst) = s2.any (fun kv => p kv.fst) := by
  intro s1
  induction s1 with
  | nil =>
    intro s2 h
    cases s2 with
    | nil => rfl
    | cons b t => simp at h
  | cons a t ih =>
    intro s2 h
    cases s2 with
    | nil => simp at h
    | cons b t2 =>
      simp only [List.map_cons, List.cons.injEq] at h
      obtain ⟨h1, h2⟩ := h
      simp [List.any, h1, ih t2 h2]

theorem respondReloaded_congr {st₁ st₂ : StoreState} (h : st₁.workspaces = st₂.workspaces)
    (id : String) (mk : WorkspaceDTO → HandlerResult) :
    WorkspaceHandler.respondReloaded st₁ id mk = WorkspaceHandler.respondReloaded st₂ id mk := by
  unfold WorkspaceHandler.respondReloaded
  rw [h]

/-! ## Concrete fixtures for counterexamples and witnesses -/

/-- A create request carrying only the mandatory name, as in spec
scenario 1. -/
def reqDemo : CreateWorkspaceRequest :=
  { name := "demo", dockerImage := "", dockerImageTag := "", cpuRequest := "",
    memoryRequest := "", cpuLimit := "", memoryLimit := "", dataSize := "",
    srcSize := "", gitUserName := "", gitUserEmail := "", secrets := [] }

/-- A stored workspace whose declared status is running. -/
def wsRunning : Workspace :=
  { id := "w1", name := "demo", status := WStatus.running, dockerImage := "hld",
    dockerImageTag := "latest", helmReleaseName := "ws-w1", nsName := "ws-w1",
    ingressHost := "", cpuRequest := "", memoryRequest := "", cpuLimit := "",
    memoryLimit := "", dataSize := "", srcSize := "", gitEnabled := false,
    gitUserName := "", gitUserEmail := "", createdAt := 0, updatedAt := 0 }

/-- A registry holding only `wsRunning`. -/
def stRunning : StoreState :=
  { workspaces := [wsRunning], secrets := [], events := [], nextEventId := 1 }

/-- A stored workspace whose declared status is stopped. -/
def wsStopped : Workspace := { wsRunning with id := "w2", status := WStatus.stopped }

/-- A registry holding only `wsStopped`. -/
def stStopped : StoreState :=
  { workspaces := [wsStopped], secrets := [], events := [], nextEventId := 1 }

/-- A stored workspace whose declared status is pending. -/
def wsPending : Workspace := { wsRunning with id := "w3", status := WStatus.pending }

/-- A registry holding only `wsPending`. -/
def stPending : StoreState :=
  { workspaces := [wsPending], secrets := [], events := [], nextEventId := 1 }

/-- A workspace whose stored identity columns follow the spec's naming. -/
def wsHld : Workspace :=
  { wsRunning with id := "a1", helmReleaseName := "hld-a1", nsName := "workspace-a1" }

/-- A registry holding only `wsHld`. -/
def stHld : StoreState :=
  { workspaces := [wsHld], secrets := [], events := [], nextEventId := 1 }

/-- The registry state right after the WorkspaceHandler Create of
`reqDemo` (deploy still pending in the background). -/
def stDemo : StoreState := (WorkspaceHandler.create emptyStore reqDemo "a1b2c3d4" 0).fst

/-- The workspace record that Create built for `reqDemo`. -/
def wsDemo : Workspace := WorkspaceHandler.newWorkspace reqDemo "a1b2c3d4"

/-! ## Claims -/

/-- C1 counterexample: the WorkspaceHandler variant's Create (cited at
workspaces.go:214-218) stores "ws-a1b2c3d4" as both the helm release
name and the namespace, not "hld-a1b2c3d4" / "workspace-a1b2c3d4" as the
claim states. -/
theorem C1_counterexample :
    ((lookupWorkspace ((WorkspaceDaemon.WorkspaceHandler.create WorkspaceDaemon.emptyStore
        WorkspaceDaemon.reqDemo "a1b2c3d4" 0).fst.workspaces) "a1b2c3d4").map
      (fun w => (w.helmReleaseName, w.nsName))) = some ("ws-a1b2c3d4", "ws-a1b2c3d4") ∧
    (some (("ws-a1b2c3d4", "ws-a1b2c3d4") : String × String)
      ≠ some ("hld-" ++ "a1b2c3d4", "workspace-" ++ "a1b2c3d4")) := by
  constructor
  · decide
  · decide

/-- C1 (amended): the WorkspaceHandlers variant stores release name
"hld-" + id and namespace "workspace-" + id at Create, while the
WorkspaceHandler variant stores "ws-" + id for both; in both variants
the stored id, release name and namespace are left untouched by the
Start and Stop handlers (for the WorkspaceHandlers variant under the
primary-key uniqueness of ids). -/
theorem C1_theorem :
    (∀ req id, (WorkspaceDaemon.WorkspaceHandlers.newWorkspace req id).helmReleaseName = "hld-" ++ id ∧
      (WorkspaceDaemon.WorkspaceHandlers.newWorkspace req id).nsName = "workspace-" ++ id) ∧
    (∀ req id, (WorkspaceDaemon.WorkspaceHandler.newWorkspace req id).helmReleaseName = "ws-" ++ id ∧
      (WorkspaceDaemon.WorkspaceHandler.newWorkspace req id).nsName = "ws-" ++ id) ∧
    (∀ st req id now deploy, WorkspaceDaemon.lookupWorkspace st.workspaces id = none →
      (WorkspaceDaemon.lookupWorkspace
        ((WorkspaceDaemon.WorkspaceHandlers.createWorkspace st req id deploy now).fst.workspaces) id).map
          (fun w => (w.helmReleaseName, w.nsName)) = some ("hld-" ++ id, "workspace-" ++ id)) ∧
    (∀ st req id now, WorkspaceDaemon.lookupWorkspace st.workspaces id = none →
      (WorkspaceDaemon.lookupWorkspace
        ((WorkspaceDaemon.WorkspaceHandler.create st req id now).fst.workspaces) id).map
          (fun w => (w.helmReleaseName, w.nsName)) = some ("ws-" ++ id, "ws-" ++ id)) ∧
    (∀ st id orch now,
      WorkspaceDaemon.identityView (WorkspaceDaemon.WorkspaceHandler.start st id orch now).fst
        = WorkspaceDaemon.identityView st ∧
      WorkspaceDaemon.identityView (WorkspaceDaemon.WorkspaceHandler.stop st id orch now).fst
        = WorkspaceDaemon.identityView st) ∧
    (∀ st id orch now, (st.workspaces.map (fun r => r.id)).Nodup →
      WorkspaceDaemon.identityView (WorkspaceDaemon.WorkspaceHandlers.startWorkspace st id orch now).fst
        = WorkspaceDaemon.identityView st ∧
      WorkspaceDaemon.identityView (WorkspaceDaemon.WorkspaceHandlers.stopWorkspace st id orch now).fst
        = WorkspaceDaemon.identityView st) := by
  refine ⟨fun req id => ⟨rfl, rfl⟩, fun req id => ⟨rfl, rfl⟩, ?_, ?_, ?_, ?_⟩
  · intro st req id now deploy h
    cases deploy with
    | error e =>
      simp only [WorkspaceDaemon.create_v2_stored_error st req id e now h, Option.map_some]
      exact rfl
    | ok u =>
      simp only [WorkspaceDaemon.create_v2_stored_ok st req id now h, Option.map_some]
      exact rfl
  · intro st req id now h
    simp only [WorkspaceDaemon.create_v1_stored st req id now h, Option.map_some]
    exact rfl
  · intro st id orch now
    exact ⟨WorkspaceDaemon.identityView_v1_start st id orch now,
           WorkspaceDaemon.identityView_v1_stop st id orch now⟩
  · intro st id orch now hnd
    exact ⟨WorkspaceDaemon.identityView_v2_start st id orch now hnd,
           WorkspaceDaemon.identityView_v2_stop st id orch now hnd⟩

/-- C1 witness: the amended statement evaluated at a concrete fresh id,
request and one-row registry. -/
theorem C1_witness :
    (WorkspaceDaemon.lookupWorkspace WorkspaceDaemon.emptyStore.workspaces "a1b2c3d4" = none) ∧
    ((WorkspaceDaemon.lookupWorkspace
      ((WorkspaceDaemon.WorkspaceHandlers.createWorkspace WorkspaceDaemon.emptyStore
        WorkspaceDaemon.reqDemo "a1b2c3d4" (Except.error "boom") 0).fst.workspaces) "a1b2c3d4").map
        (fun w => (w.helmReleaseName, w.nsName)) = some ("hld-" ++ "a1b2c3d4", "workspace-" ++ "a1b2c3d4")) ∧
    ((WorkspaceDaemon.stRunning.workspaces.map (fun r => r.id)).Nodup) ∧
    (WorkspaceDaemon.identityView
        (WorkspaceDaemon.WorkspaceHandlers.startWorkspace WorkspaceDaemon.stRunning "w1" (Except.ok ()) 0).fst
      = WorkspaceDaemon.identityView WorkspaceDaemon.stRunning) :=
  ⟨by decide,
   C1_theorem.2.2.1 WorkspaceDaemon.emptyStore WorkspaceDaemon.reqDemo "a1b2c3d4" 0
     (Except.error "boom") (by decide),
   by decide,
   (C1_theorem.2.2.2.2.2 WorkspaceDaemon.stRunning "w1" (Except.ok ()) 0 (by decide)).1⟩

/-- C2 counterexample: in the WorkspaceHandler variant Deploy runs in a
background goroutine after the 201 is sent, so a failing Deploy is never
returned to the caller; and the success path of that goroutine appends a
`started` event "Workspace deployed successfully", not a `deployed`
event. -/
theorem C2_counterexample :
    (WorkspaceHandler.create emptyStore reqDemo "a1b2c3d4" 0).snd.isCreated = true ∧
    (WorkspaceHandler.create emptyStore reqDemo "a1b2c3d4" 0).snd.isFailure = false ∧
    hasEvent (WorkspaceHandler.backgroundDeploy stDemo wsDemo (Except.ok ()) 1)
      "a1b2c3d4" "deployed" "Helm release installed" = false ∧
    hasEvent (WorkspaceHandler.backgroundDeploy stDemo wsDemo (Except.ok ()) 1)
      "a1b2c3d4" "started" "Workspace deployed successfully" = true := by
  refine ⟨by decide, by decide, by decide, by decide⟩

/-- C2 (amended): in the WorkspaceHandlers variant (synchronous deploy)
the claim holds as stated: a failing Deploy yields declared status
error, an `error` event carrying the orchestrator's error string, and a
500 carrying the failure; a successful Deploy yields status running and
a `deployed` event with a 201.  In the WorkspaceHandler variant the
deploy goroutine's failure path also records status error plus the
`error` event, but the response was already 201, and its success path
appends a `started` event instead of `deployed`. -/
theorem C2_theorem :
    (∀ st req id now e, lookupWorkspace st.workspaces id = none →
      statusOf (WorkspaceHandlers.createWorkspace st req id (Except.error e) now).fst id
          = some WStatus.error ∧
      hasEvent (WorkspaceHandlers.createWorkspace st req id (Except.error e) now).fst
          id "error" ("Deployment failed: " ++ e) = true ∧
      (WorkspaceHandlers.createWorkspace st req id (Except.error e) now).snd
          = HandlerResult.internalError ("deployment failed: " ++ e)) ∧
    (∀ st req id now, lookupWorkspace st.workspaces id = none →
      statusOf (WorkspaceHandlers.createWorkspace st req id (Except.ok ()) now).fst id
          = some WStatus.running ∧
      hasEvent (WorkspaceHandlers.createWorkspace st req id (Except.ok ()) now).fst
          id "deployed" "Helm release installed" = true ∧
      (WorkspaceHandlers.createWorkspace st req id (Except.ok ()) now).snd.isCreated = true) ∧
    (∀ st ws now e,
      hasEvent (WorkspaceHandler.backgroundDeploy st ws (Except.error e) now)
        ws.id "error" ("Deployment failed: " ++ e) = true) ∧
    (∀ st ws now,
      hasEvent (WorkspaceHandler.backgroundDeploy st ws (Except.ok ()) now)
        ws.id "started" "Workspace deployed successfully" = true) := by
  refine ⟨?_, ?_, ?_, ?_⟩
  · intro st req id now e h
    have hid : (WorkspaceHandlers.newWorkspace req id).id = id := rfl
    refine ⟨?_, ?_, ?_⟩
    · simp only [statusOf, create_v2_stored_error st req id e now h, Option.map_some]
      exact rfl
    · simp only [WorkspaceHandlers.createWorkspace, SQLiteStore.createWorkspace, hid, h,
        Option.isSome_none, Bool.false_eq_true, if_false]
      exact hasEvent_logEvent_self _ _ _ _ _
    · simp only [WorkspaceHandlers.createWorkspace, SQLiteStore.createWorkspace, hid, h,
        Option.isSome_none, Bool.false_eq_true, if_false]
  · intro st req id now h
    have hid : (WorkspaceHandlers.newWorkspace req id).id = id := rfl
    refine ⟨?_, ?_, ?_⟩
    · simp only [statusOf, create_v2_stored_ok st req id now h, Option.map_some]
      exact rfl
    · simp only [WorkspaceHandlers.createWorkspace, SQLiteStore.createWorkspace, hid, h,
        Option.isSome_none, Bool.false_eq_true, if_false]
      exact hasEvent_logEvent_self _ _ _ _ _
    · simp only [WorkspaceHandlers.createWorkspace, SQLiteStore.createWorkspace, hid, h,
        Option.isSome_none, Bool.false_eq_true, if_false]
      rfl
  · intro st ws now e
    exact hasEvent_logEvent_self _ _ _ _ _
  · intro st ws now
    exact hasEvent_logEvent_self _ _ _ _ _

/-- C2 witness: the synchronous-variant conclusions evaluated at a fresh
registry, the demo request and a Deploy failing with "boom". -/
theorem C2_witness :
    (lookupWorkspace emptyStore.workspaces "a1b2c3d4" = none) ∧
    (statusOf (WorkspaceHandlers.createWorkspace emptyStore reqDemo "a1b2c3d4"
        (Except.error "boom") 0).fst "a1b2c3d4" = some WStatus.error ∧
      hasEvent (WorkspaceHandlers.createWorkspace emptyStore reqDemo "a1b2c3d4"
        (Except.error "boom") 0).fst "a1b2c3d4" "error" ("Deployment failed: " ++ "boom") = true ∧
      (WorkspaceHandlers.createWorkspace emptyStore reqDemo "a1b2c3d4"
        (Except.error "boom") 0).snd = HandlerResult.internalError ("deployment failed: " ++ "boom")) :=
  ⟨by decide, C2_theorem.1 emptyStore reqDemo "a1b2c3d4" 0 "boom" (by decide)⟩

/-- C3 counterexample: in the WorkspaceHandler variant, Start on an
already-running workspace and Stop on an already-stopped workspace
answer 400 Bad Request, not success. -/
theorem C3_counterexample :
    (WorkspaceHandler.start stRunning "w1" (some (Except.ok ())) 0).snd
        = HandlerResult.badRequest "Workspace is already running" ∧
    (WorkspaceHandler.start stRunning "w1" (some (Except.ok ())) 0).snd.isOk200 = false ∧
    (WorkspaceHandler.stop stStopped "w2" (some (Except.ok ())) 0).snd
        = HandlerResult.badRequest "Workspace is already stopped" ∧
    (WorkspaceHandler.stop stStopped "w2" (some (Except.ok ())) 0).snd.isOk200 = false := by
  refine ⟨by decide, by decide, by decide, by decide⟩

/-- C3 (amended): Start on a running workspace and Stop on a stopped
workspace answer success only in the WorkspaceHandlers variant (given a
successful orchestrator call); the WorkspaceHandler variant rejects both
with 400 "already running" / "already stopped". -/
theorem C3_theorem :
    ∀ st id ws now, lookupWorkspace st.workspaces id = some ws →
      (ws.status = WStatus.running →
        WorkspaceHandler.start st id (some (Except.ok ())) now
            = (st, HandlerResult.badRequest "Workspace is already running") ∧
        (WorkspaceHandlers.startWorkspace st id (Except.ok ()) now).snd.isOk200 = true) ∧
      (ws.status = WStatus.stopped →
        WorkspaceHandler.stop st id (some (Except.ok ())) now
            = (st, HandlerResult.badRequest "Workspace is already stopped") ∧
        (WorkspaceHandlers.stopWorkspace st id (Except.ok ()) now).snd.isOk200 = true) := by
  intro st id ws now hfind
  constructor
  · intro hrun
    constructor
    · unfold WorkspaceHandler.start
      simp [hfind, hrun]
    · unfold WorkspaceHandlers.startWorkspace
      simp [hfind, HandlerResult.isOk200]
  · intro hstop
    constructor
    · unfold WorkspaceHandler.stop
      simp [hfind, hstop]
    · unfold WorkspaceHandlers.stopWorkspace
      simp [hfind, HandlerResult.isOk200]

/-- C3 witness: the amended statement evaluated on one running and one
stopped workspace. -/
theorem C3_witness :
    (lookupWorkspace stRunning.workspaces "w1" = some wsRunning ∧
      wsRunning.status = WStatus.running ∧
      WorkspaceHandler.start stRunning "w1" (some (Except.ok ())) 0
          = (stRunning, HandlerResult.badRequest "Workspace is already running") ∧
      (WorkspaceHandlers.startWorkspace stRunning "w1" (Except.ok ()) 0).snd.isOk200 = true) ∧
    (lookupWorkspace stStopped.workspaces "w2" = some wsStopped ∧
      wsStopped.status = WStatus.stopped ∧
      WorkspaceHandler.stop stStopped "w2" (some (Except.ok ())) 0
          = (stStopped, HandlerResult.badRequest "Workspace is already stopped") ∧
      (WorkspaceHandlers.stopWorkspace stStopped "w2" (Except.ok ()) 0).snd.isOk200 = true) :=
  ⟨⟨by decide, by decide,
    ((C3_theorem stRunning "w1" wsRunning 0 (by decide)).1 (by decide)).1,
    ((C3_theorem stRunning "w1" wsRunning 0 (by decide)).1 (by decide)).2⟩,
   ⟨by decide, by decide,
    ((C3_theorem stStopped "w2" wsStopped 0 (by decide)).2 (by decide)).1,
    ((C3_theorem stStopped "w2" wsStopped 0 (by decide)).2 (by decide)).2⟩⟩

/-- C4 counterexample: a limit of 150 is not clamped to 100.  The
WorkspaceHandler variant rejects it and reads with the default 50; the
WorkspaceHandlers variant passes 150 straight to the store query. -/
theorem C4_counterexample :
    WorkspaceHandler.eventsLimit "150" = 50 ∧
    WorkspaceHandlers.eventsLimit "150" = 150 ∧
    ((50 : Int) ≠ 100) ∧ ((150 : Int) ≠ 100) := by
  refine ⟨by decide, by decide, by decide, by decide⟩

/-- C4 (amended): for a parsed limit above 100, the WorkspaceHandler
variant falls back to the default 50 (the 0 < l ≤ 100 guard fails) and
the WorkspaceHandlers variant adopts the oversized limit unchanged;
neither clamps to 100, and the store applies the limit as given. -/
theorem C4_theorem :
    ∀ (s : String) (l : Int), parseDec s = some l → 100 < l →
      WorkspaceHandler.eventsLimit s = 50 ∧ WorkspaceHandlers.eventsLimit s = l := by
  intro s l h hl
  have hs : (s == "") = false := by
    cases hse : (s == "") with
    | false => rfl
    | true =>
      have : s = "" := eq_of_beq hse
      subst this
      simp [parseDec] at h
  constructor
  · unfold WorkspaceHandler.eventsLimit
    rw [hs]
    simp only [Bool.false_eq_true, if_false, h]
    rw [if_neg (by omega)]
  · unfold WorkspaceHandlers.eventsLimit
    rw [hs]
    simp only [Bool.false_eq_true, if_false, h]

/-- C4 witness: the amended statement evaluated at the query value
"150". -/
theorem C4_witness :
    parseDec "150" = some 150 ∧ (100 : Int) < 150 ∧
    (WorkspaceHandler.eventsLimit "150" = 50 ∧ WorkspaceHandlers.eventsLimit "150" = 150) :=
  ⟨by decide, by decide, C4_theorem "150" 150 (by decide) (by decide)⟩

/-- A create request with a committer name but no email and no
gh_token. -/
def reqGitNameOnly : CreateWorkspaceRequest := { reqDemo with gitUserName := "alice" }

/-- A create request whose only git signal is a gh_token secret. -/
def reqGhTokenOnly : CreateWorkspaceRequest :=
  { reqDemo with secrets := [("gh_token", "ghp_y")] }

/-- C5 counterexample: with only a committer name (no email, no
gh_token) the spec condition is false but the WorkspaceHandler variant
stores git-enabled true (it ORs name and email); with only a gh_token
the spec condition is true but the WorkspaceHandlers variant stores
false (it never consults the secrets). -/
theorem C5_counterexample :
    ((lookupWorkspace (WorkspaceHandler.create emptyStore reqGitNameOnly "a1b2c3d4" 0).fst.workspaces
        "a1b2c3d4").map (fun w => w.gitEnabled)) = some true ∧
    specGitEnabled reqGitNameOnly = false ∧
    ((lookupWorkspace (WorkspaceHandlers.createWorkspace emptyStore reqGhTokenOnly "b2c3d4e5"
        (Except.ok ()) 0).fst.workspaces "b2c3d4e5").map (fun w => w.gitEnabled)) = some false ∧
    specGitEnabled reqGhTokenOnly = true := by
  refine ⟨by decide, by decide, by decide, by decide⟩

/-- C5 (amended): the stored git-enabled flag is, in the
WorkspaceHandler variant, true iff the committer name OR the committer
email is present OR the secrets contain gh_token; and in the
WorkspaceHandlers variant, true iff committer name AND email are both
present (gh_token is ignored). -/
theorem C5_theorem :
    ∀ st req id now deploy, lookupWorkspace st.workspaces id = none →
      ((lookupWorkspace ((WorkspaceHandler.create st req id now).fst.workspaces) id).map
          (fun w => w.gitEnabled) = some (WorkspaceHandler.gitEnabled req)) ∧
      (WorkspaceHandler.gitEnabled req = true ↔
        (req.gitUserName ≠ "" ∨ req.gitUserEmail ≠ "" ∨ "gh_token" ∈ req.secrets.map Prod.fst)) ∧
      ((lookupWorkspace ((WorkspaceHandlers.createWorkspace st req id deploy now).fst.workspaces) id).map
          (fun w => w.gitEnabled) = some (!(req.gitUserName == "") && !(req.gitUserEmail == ""))) ∧
      ((!(req.gitUserName == "") && !(req.gitUserEmail == "")) = true ↔
        (req.gitUserName ≠ "" ∧ req.gitUserEmail ≠ "")) := by
  intro st req id now deploy h
  refine ⟨?_, ?_, ?_, ?_⟩
  · simp only [create_v1_stored st req id now h, Option.map_some]
    exact rfl
  · simp [WorkspaceHandler.gitEnabled, List.any_eq_true, List.mem_map]
    aesop
  · cases deploy with
    | error e =>
      simp only [create_v2_stored_error st req id e now h, Option.map_some]
      exact rfl
    | ok u =>
      simp only [create_v2_stored_ok st req id now h, Option.map_some]
      exact rfl
  · simp

/-- C5 witness: the amended statement evaluated at the name-only
request against a fresh registry. -/
theorem C5_witness :
    (lookupWorkspace emptyStore.workspaces "a1b2c3d4" = none) ∧
    ((lookupWorkspace ((WorkspaceHandler.create emptyStore reqGitNameOnly "a1b2c3d4" 0).fst.workspaces)
        "a1b2c3d4").map (fun w => w.gitEnabled)
      = some (WorkspaceHandler.gitEnabled reqGitNameOnly)) ∧
    ((lookupWorkspace ((WorkspaceHandlers.createWorkspace emptyStore reqGitNameOnly "a1b2c3d4"
        (Except.ok ()) 0).fst.workspaces) "a1b2c3d4").map (fun w => w.gitEnabled)
      = some (!(reqGitNameOnly.gitUserName == "") && !(reqGitNameOnly.gitUserEmail == ""))) :=
  ⟨by decide,
   (C5_theorem emptyStore reqGitNameOnly "a1b2c3d4" 0 (Except.ok ()) (by decide)).1,
   (C5_theorem emptyStore reqGitNameOnly "a1b2c3d4" 0 (Except.ok ()) (by decide)).2.2.1⟩

/-- C6 counterexample: with the second orchestrator variant, deleting
`wsHld` removes its release and a second delete — the release now
absent — returns the wrapped uninstall error instead of success. -/
theorem C6_counterexample :
    (HelmOrchestrator.deleteWorkspaceV2 ["hld-a1"] wsHld).snd = Except.ok () ∧
    (HelmOrchestrator.deleteWorkspaceV2
        (HelmOrchestrator.deleteWorkspaceV2 ["hld-a1"] wsHld).fst wsHld).snd
      = Except.error
        "failed to uninstall helm release: uninstall: Release not loaded: hld-a1: release: not found" := by
  exact ⟨rfl, rfl⟩

/-- C6 (amended): the helm.go orchestrator's DeleteWorkspace swallows
uninstall failures and returns success in every state, so double-delete
succeeds; the second orchestrator variant propagates the uninstall
error, so its Delete fails whenever the release is already absent. -/
theorem C6_theorem :
    (∀ releases ws, (HelmOrchestrator.deleteWorkspaceHelmGo releases ws).snd = Except.ok ()) ∧
    (∀ releases ws,
      (HelmOrchestrator.deleteWorkspaceHelmGo
        (HelmOrchestrator.deleteWorkspaceHelmGo releases ws).fst ws).snd = Except.ok ()) ∧
    (∀ releases ws, ws.helmReleaseName ∉ releases →
      (HelmOrchestrator.deleteWorkspaceV2 releases ws).snd
        = Except.error ("failed to uninstall helm release: "
            ++ ("uninstall: Release not loaded: " ++ ws.helmReleaseName ++ ": release: not found"))) := by
  have hok : ∀ releases ws, (HelmOrchestrator.deleteWorkspaceHelmGo releases ws).snd = Except.ok () := by
    intro releases ws
    cases h : helmUninstall releases ("hld-" ++ ws.id) with
    | ok rest => simp [HelmOrchestrator.deleteWorkspaceHelmGo, h]
    | error e => simp [HelmOrchestrator.deleteWorkspaceHelmGo, h]
  refine ⟨hok, fun releases ws => hok _ ws, ?_⟩
  intro releases ws h
  unfold HelmOrchestrator.deleteWorkspaceV2 helmUninstall
  simp [h]

/-- C6 witness: the amended statement evaluated on an empty cluster and
on `wsHld`. -/
theorem C6_witness :
    ((HelmOrchestrator.deleteWorkspaceHelmGo [] wsHld).snd = Except.ok ()) ∧
    (wsHld.helmReleaseName ∉ ([] : List String)) ∧
    ((HelmOrchestrator.deleteWorkspaceV2 [] wsHld).snd
      = Except.error ("failed to uninstall helm release: "
          ++ ("uninstall: Release not loaded: " ++ wsHld.helmReleaseName ++ ": release: not found"))) :=
  ⟨C6_theorem.1 [] wsHld, by decide, C6_theorem.2.2 [] wsHld (by decide)⟩

/-- The stored row of stHld with renamed identity columns, as an Update
argument. -/
def wsHldRenamed : Workspace := { wsHld with helmReleaseName := "x", nsName := "y" }

/-- C7 counterexample: the second SQLiteStore's UpdateWorkspace rewrites
the helm_release_name and namespace columns from the passed record. -/
theorem C7_counterexample :
    (SQLiteStore.updateWorkspaceV2 stHld wsHldRenamed 5).workspaces.map
        (fun r => (r.helmReleaseName, r.nsName)) = [("x", "y")] ∧
    stHld.workspaces.map (fun r => (r.helmReleaseName, r.nsName)) = [("hld-a1", "workspace-a1")] ∧
    ([(("x" : String), ("y" : String))] ≠ [(("hld-a1" : String), ("workspace-a1" : String))]) := by
  refine ⟨by decide, by decide, by decide⟩

/-- C7 (amended): the first SQLiteStore's UpdateWorkspace leaves every
row's id, helm release name and namespace unchanged; the second
variant's UpdateWorkspace keys on id (never changing it) but overwrites
helm_release_name and namespace with the passed record's values. -/
theorem C7_theorem :
    ∀ st ws now,
      identityView (SQLiteStore.updateWorkspaceV1 st ws now) = identityView st ∧
      (SQLiteStore.updateWorkspaceV2 st ws now).workspaces.map (fun r => r.id)
        = st.workspaces.map (fun r => r.id) := by
  intro st ws now
  refine ⟨identityView_updateV1 st ws now, ?_⟩
  unfold SQLiteStore.updateWorkspaceV2
  simp only [List.map_map]
  apply List.map_congr_left
  intro row _
  by_cases h : (row.id == ws.id) = true <;> simp [h, Function.comp]

/-- C8 (confirmed): in both handler variants, when the orchestrator's
Start/Stop call fails, the handler returns 500 before any registry write
— the whole store state, hence the declared status, is unchanged.  (For
the WorkspaceHandler variant the workspace must not already be in the
target status, since that case answers 400 without reaching the
orchestrator.) -/
theorem C8_theorem :
    ∀ st id ws e now, lookupWorkspace st.workspaces id = some ws →
      (ws.status ≠ WStatus.running →
        WorkspaceHandler.start st id (some (Except.error e)) now
          = (st, HandlerResult.internalError "Failed to start workspace")) ∧
      (ws.status ≠ WStatus.stopped →
        WorkspaceHandler.stop st id (some (Except.error e)) now
          = (st, HandlerResult.internalError "Failed to stop workspace")) ∧
      (WorkspaceHandlers.startWorkspace st id (Except.error e) now
          = (st, HandlerResult.internalError ("failed to start: " ++ e))) ∧
      (WorkspaceHandlers.stopWorkspace st id (Except.error e) now
          = (st, HandlerResult.internalError ("failed to stop: " ++ e))) := by
  intro st id ws e now hfind
  refine ⟨?_, ?_, ?_, ?_⟩
  · intro hne
    unfold WorkspaceHandler.start
    simp [hfind, hne]
  · intro hne
    unfold WorkspaceHandler.stop
    simp [hfind, hne]
  · unfold WorkspaceHandlers.startWorkspace
    simp [hfind]
  · unfold WorkspaceHandlers.stopWorkspace
    simp [hfind]

/-- C8 witness: the statement evaluated on a pending workspace with an
orchestrator failing with "boom". -/
theorem C8_witness :
    (lookupWorkspace stPending.workspaces "w3" = some wsPending) ∧
    (wsPending.status ≠ WStatus.running) ∧
    (wsPending.status ≠ WStatus.stopped) ∧
    (WorkspaceHandler.start stPending "w3" (some (Except.error "boom")) 0
      = (stPending, HandlerResult.internalError "Failed to start workspace")) ∧
    (WorkspaceHandler.stop stPending "w3" (some (Except.error "boom")) 0
      = (stPending, HandlerResult.internalError "Failed to stop workspace")) ∧
    (WorkspaceHandlers.startWorkspace stPending "w3" (Except.error "boom") 0
      = (stPending, HandlerResult.internalError ("failed to start: " ++ "boom"))) ∧
    (WorkspaceHandlers.stopWorkspace stPending "w3" (Except.error "boom") 0
      = (stPending, HandlerResult.internalError ("failed to stop: " ++ "boom"))) :=
  ⟨by decide, by decide, by decide,
   (C8_theorem stPending "w3" wsPending "boom" 0 (by decide)).1 (by decide),
   (C8_theorem stPending "w3" wsPending "boom" 0 (by decide)).2.1 (by decide),
   (C8_theorem stPending "w3" wsPending "boom" 0 (by decide)).2.2.1,
   (C8_theorem stPending "w3" wsPending "boom" 0 (by decide)).2.2.2⟩

/-- C9 counterexample: the WorkspaceHandler variant's Get, fed the
nil-without-error result that the second SQLiteStore's GetWorkspace
returns for an unknown id, dereferences the nil workspace (modelled as
`crash`) instead of answering NotFound. -/
theorem C9_counterexample :
    WorkspaceHandler.get (SQLiteStore.getWorkspaceV2 emptyStore "a1b2c3d4")
      = HandlerResult.crash ∧
    HandlerResult.crash ≠ HandlerResult.notFound "Workspace not found" := by
  refine ⟨by decide, by decide⟩

/-- C9 (amended): the WorkspaceHandlers variant treats nil-without-error
as 404 and never dereferences the nil workspace (explicit store errors
answer 500, not 404); the WorkspaceHandler variant answers 404 for every
store error but dereferences a nil workspace returned without an
error. -/
theorem C9_theorem :
    (∀ id r, WorkspaceHandlers.getWorkspace id r ≠ HandlerResult.crash) ∧
    (∀ id, WorkspaceHandlers.getWorkspace id (Except.ok none)
      = HandlerResult.notFound ("workspace not found: " ++ id)) ∧
    (∀ id e, WorkspaceHandlers.getWorkspace id (Except.error e)
      = HandlerResult.internalError e) ∧
    (∀ st id, lookupWorkspace st.workspaces id = none →
      WorkspaceHandlers.getWorkspace id (SQLiteStore.getWorkspaceV2 st id)
        = HandlerResult.notFound ("workspace not found: " ++ id)) := by
  refine ⟨?_, fun id => rfl, fun id e => rfl, ?_⟩
  · intro id r
    rcases r with e | (_ | ws) <;> simp [WorkspaceHandlers.getWorkspace]
  · intro st id h
    unfold SQLiteStore.getWorkspaceV2
    rw [h]
    rfl

/-- C9 witness: the amended statement evaluated on an empty registry and
an unknown id. -/
theorem C9_witness :
    (lookupWorkspace emptyStore.workspaces "zz" = none) ∧
    (WorkspaceHandlers.getWorkspace "zz" (SQLiteStore.getWorkspaceV2 emptyStore "zz")
      = HandlerResult.notFound ("workspace not found: " ++ "zz")) :=
  ⟨by decide, C9_theorem.2.2.2 emptyStore "zz" (by decide)⟩

/-- C10 (confirmed, formalized as noninterference): changing only the
values of the submitted secrets (keeping their keys) changes neither the
HTTP response, nor the stored workspace rows, nor the event log, in
either Create variant.  Secret values therefore cannot appear in any
response body or event message; they reach only the secrets table and
the Deploy call (whose outcome is the explicitly-passed `deploy`
parameter — the one path the claim exempts). -/
theorem C10_theorem :
    ∀ (st : StoreState) (req : CreateWorkspaceRequest) (id : String) (now : Nat)
      (deploy : Except String Unit) (s1 s2 : List (String × String)),
      s1.map Prod.fst = s2.map Prod.fst →
      ((WorkspaceHandlers.createWorkspace st { req with secrets := s1 } id deploy now).snd
          = (WorkspaceHandlers.createWorkspace st { req with secrets := s2 } id deploy now).snd ∧
        projState (WorkspaceHandlers.createWorkspace st { req with secrets := s1 } id deploy now).fst
          = projState (WorkspaceHandlers.createWorkspace st { req with secrets := s2 } id deploy now).fst) ∧
      ((WorkspaceHandler.create st { req with secrets := s1 } id now).snd
          = (WorkspaceHandler.create st { req with secrets := s2 } id now).snd ∧
        projState (WorkspaceHandler.create st { req with secrets := s1 } id now).fst
          = projState (WorkspaceHandler.create st { req with secrets := s2 } id now).fst) := by
  intro st req id now deploy s1 s2 hkeys
  have hany : s1.any (fun kv => kv.fst == "gh_token") = s2.any (fun kv => kv.fst == "gh_token") :=
    any_fst_congr (fun k => k == "gh_token") s1 s2 hkeys
  have hws1 : WorkspaceHandler.newWorkspace { req with secrets := s1 } id
      = WorkspaceHandler.newWorkspace { req with secrets := s2 } id := by
    simp [WorkspaceHandler.newWorkspace, WorkspaceHandler.gitEnabled, hany]
  constructor
  · -- WorkspaceHandlers variant
    have hid1 : (WorkspaceHandlers.newWorkspace { req with secrets := s1 } id).id = id := rfl
    have hid2 : (WorkspaceHandlers.newWorkspace { req with secrets := s2 } id).id = id := rfl
    cases hlk : lookupWorkspace st.workspaces id with
    | some w =>
      constructor <;>
        simp [WorkspaceHandlers.createWorkspace, SQLiteStore.createWorkspace, hid1, hid2, hlk]
    | none =>
      simp only [WorkspaceHandlers.createWorkspace, SQLiteStore.createWorkspace,
        hid1, hid2, hlk, Option.isSome_none, Bool.false_eq_true, if_false]
      cases deploy with
      | error e =>
        refine ⟨rfl, ?_⟩
        exact logEvent_projState_congr
          (updateV2_projState_congr
            (logEvent_projState_congr
              ((foldl_setSecret_projState s1 _ id).trans
                (foldl_setSecret_projState s2 _ id).symm) _ _ _ _) _ _) _ _ _ _
      | ok u =>
        refine ⟨rfl, ?_⟩
        exact logEvent_projState_congr
          (updateV2_projState_congr
            (logEvent_projState_congr
              ((foldl_setSecret_projState s1 _ id).trans
                (foldl_setSecret_projState s2 _ id).symm) _ _ _ _) _ _) _ _ _ _
  · -- WorkspaceHandler variant
    have hid2 : (WorkspaceHandler.newWorkspace { req with secrets := s2 } id).id = id := rfl
    cases hlk : lookupWorkspace st.workspaces id with
    | some w =>
      constructor <;>
        simp [WorkspaceHandler.create, SQLiteStore.createWorkspace, hws1, hid2, hlk]
    | none =>
      simp only [WorkspaceHandler.create, SQLiteStore.createWorkspace, hws1,
        hid2, hlk, Option.isSome_none, Bool.false_eq_true, if_false]
      constructor
      · apply respondReloaded_congr
        simp only [logEvent_workspaces, foldl_setSecret_workspaces]
      · exact logEvent_projState_congr
          ((foldl_setSecret_projState s1 _ id).trans
            (foldl_setSecret_projState s2 _ id).symm) _ _ _ _

/-- The secrets bundle of spec scenario 5. -/
def secretsA : List (String × String) :=
  [("humanlayer_api_key", "hl_x"), ("gh_token", "ghp_y")]

/-- The same keys as `secretsA` with different values. -/
def secretsB : List (String × String) :=
  [("humanlayer_api_key", "hl_OTHER"), ("gh_token", "ghp_OTHER")]

/-- C10 witness: the noninterference statement evaluated on two concrete
secret bundles sharing their keys. -/
theorem C10_witness :
    (secretsA.map Prod.fst = secretsB.map Prod.fst) ∧
    (((WorkspaceHandlers.createWorkspace emptyStore { reqDemo with secrets := secretsA }
        "a1b2c3d4" (Except.ok ()) 0).snd
      = (WorkspaceHandlers.createWorkspace emptyStore { reqDemo with secrets := secretsB }
        "a1b2c3d4" (Except.ok ()) 0).snd ∧
      projState (WorkspaceHandlers.createWorkspace emptyStore { reqDemo with secrets := secretsA }
        "a1b2c3d4" (Except.ok ()) 0).fst
      = projState (WorkspaceHandlers.createWorkspace emptyStore { reqDemo with secrets := secretsB }
        "a1b2c3d4" (Except.ok ()) 0).fst) ∧
    ((WorkspaceHandler.create emptyStore { reqDemo with secrets := secretsA } "a1b2c3d4" 0).snd
      = (WorkspaceHandler.create emptyStore { reqDemo with secrets := secretsB } "a1b2c3d4" 0).snd ∧
      projState (WorkspaceHandler.create emptyStore { reqDemo with secrets := secretsA }
        "a1b2c3d4" 0).fst
      = projState (WorkspaceHandler.create emptyStore { reqDemo with secrets := secretsB }
        "a1b2c3d4" 0).fst)) :=
  ⟨by decide,
   C10_theorem emptyStore reqDemo "a1b2c3d4" 0 (Except.ok ()) secretsA secretsB (by decide)⟩

end WorkspaceDaemon
